import Mathlib

/-!
Verification of the `containerof` intrusive-structure library.

The library translates between a containing structure and an intrusive
field embedded within it, tracking everything by address.  Addresses are
address-sized unsigned integers; the library's pointer arithmetic
(`ptr.add` / `ptr.sub`) has the caller-contract that it never overflows
or underflows, so addresses are embedded as `Nat`.

- `IntrusiveAlias` embeds `struct IntrusiveAlias(pub *const ())`.
- `OwnBox T` embeds `struct OwnBox<T> { pointer: IntrusiveAlias, .. }`
  (the `PhantomData<T>` marker is the type parameter).
- `BorrowBox T` / `BorrowBoxMut T` embed the borrow wrappers; the
  phantom lifetime has no observable content and is dropped.
- `Handle C F k` embeds the translation newtype generated by
  `containerof_intrusive!` (`struct Nt(IntrusiveAlias)`), whose
  `IntrusiveBase` instance has `Container = C`, `Field = F`,
  `offset() = k`, `new = Nt`, and `as_alias` the identity
  reinterpretation.  The methods of the blanket
  `impl<T: IntrusiveBase> Intrusive for T` are translated one-to-one
  on `Handle`.
- Rust references are embedded as the address of the referent; a method
  taking `&mut self` and returning a pointer is embedded as returning
  the pointer together with the post-call state of `self`.
-/

/-- Address-sized unsigned integer (`usize` / `*const ()` address). -/
abbrev Addr := Nat

/-- `pub struct IntrusiveAlias(pub *const ());` — wraps one address. -/
structure IntrusiveAlias where
  addr : Addr
  deriving DecidableEq, Repr

namespace IntrusiveAlias

/-- `IntrusiveAlias::new`: create an alias from a pointer address. -/
def new (a : Addr) : IntrusiveAlias := ⟨a⟩

/-- `IntrusiveAlias::new_of<T>(addr: &T)`: capture the address of a
reference (`(addr as *const T).cast()`).  The reference is embedded as
the address `r` of its referent. -/
def new_of (r : Addr) : IntrusiveAlias := IntrusiveAlias.new r

/-- `IntrusiveAlias::get_address`: read back the stored address. -/
def get_address (ia : IntrusiveAlias) : Addr := ia.addr

/-- The `Copy` derive on `IntrusiveAlias`: a copy is a bitwise
duplicate of the value. -/
def copy (ia : IntrusiveAlias) : IntrusiveAlias := ia

end IntrusiveAlias

/-- `pub struct OwnBox<T> { pointer: IntrusiveAlias, marker: PhantomData<T> }` -/
structure OwnBox (T : Type) where
  pointer : IntrusiveAlias
  deriving DecidableEq, Repr

namespace OwnBox

/-- `OwnBox::get_address`: `self.pointer.0`. -/
def get_address {T : Type} (b : OwnBox T) : Addr := b.pointer.addr

/-- `OwnBox::from_alias` (unsafe): adopt a raw alias as owned. -/
def from_alias {T : Type} (p : IntrusiveAlias) : OwnBox T := ⟨p⟩

/-- `OwnBox::into_alias`: move ownership out as the raw alias
(`mem::forget(self)` then return the saved pointer). -/
def into_alias {T : Type} (b : OwnBox T) : IntrusiveAlias := b.pointer

/-- `OwnBox::as_alias`: borrow the stored alias. -/
def as_alias {T : Type} (b : OwnBox T) : IntrusiveAlias := b.pointer

/-- `OwnBox::from_box`: capture a `Box` allocation (embedded as its
start address) as an owned alias. -/
def from_box {T : Type} (boxaddr : Addr) : OwnBox T :=
  ⟨IntrusiveAlias.new boxaddr⟩

/-- `OwnBox::into_box` (unsafe): release back to a `Box`, i.e. to the
tracked allocation start address. -/
def into_box {T : Type} (b : OwnBox T) : Addr :=
  b.into_alias.get_address

end OwnBox

/-- The global allocation state: the start addresses of the live heap
allocations.  An operation that deallocates removes an address; an
operation that aborts is modelled by returning `Except.error`. -/
structure World where
  allocs : List Addr
  deriving DecidableEq, Repr

/-- `impl<T> ops::Drop for OwnBox<T>` — the body of `fn drop(&mut self)`
is empty (the `panic!` is commented out), so the handler neither
deallocates nor aborts.  `Except.error` would model an abort and a
changed `World` a deallocation. -/
def OwnBox.drop_handler {T : Type} (w : World) (_b : OwnBox T) :
    Except String World :=
  Except.ok w

/-- `pub struct BorrowBox<'a, T: 'a> { pointer: IntrusiveAlias, .. }` -/
structure BorrowBox (T : Type) where
  pointer : IntrusiveAlias
  deriving DecidableEq, Repr

namespace BorrowBox

/-- `BorrowBox::new_from` (unsafe): wrap a raw alias, binding the
lifetime of the second argument (which carries no observable data). -/
def new_from {T : Type} (pointer : IntrusiveAlias) : BorrowBox T :=
  ⟨pointer⟩

/-- `BorrowBox::new(source: &T)`: `new_from(IntrusiveAlias::new_of(source), source)`. -/
def new {T : Type} (source : Addr) : BorrowBox T :=
  BorrowBox.new_from (IntrusiveAlias.new_of source)

end BorrowBox

/-- `pub struct BorrowBoxMut<'a, T: 'a> { pointer: IntrusiveAlias, .. }` -/
structure BorrowBoxMut (T : Type) where
  pointer : IntrusiveAlias
  deriving DecidableEq, Repr

namespace BorrowBoxMut

/-- `BorrowBoxMut::new_from` (unsafe): wrap a raw alias. -/
def new_from {T : Type} (pointer : IntrusiveAlias) : BorrowBoxMut T :=
  ⟨pointer⟩

/-- `BorrowBoxMut::new(source: &mut T)`. -/
def new {T : Type} (source : Addr) : BorrowBoxMut T :=
  BorrowBoxMut.new_from (IntrusiveAlias.new_of source)

end BorrowBoxMut

/-- The translation type generated by
`containerof_intrusive!(Nt = C:field::F)`: `struct Nt(IntrusiveAlias)`,
with `IntrusiveBase::Container = C`, `IntrusiveBase::Field = F` and
`IntrusiveBase::offset() = k` (the byte offset of the field in the
container).  All `Intrusive` methods below are the bodies of the
blanket `impl<T: IntrusiveBase> Intrusive for T`. -/
structure Handle (C F : Type) (k : Nat) where
  ia : IntrusiveAlias
  deriving DecidableEq, Repr

namespace Handle

variable {C F : Type} {k : Nat}

/-- `IntrusiveBase::new(ia)` for a macro-generated type: `Nt(ia)`. -/
def new (ia : IntrusiveAlias) : Handle C F k := ⟨ia⟩

/-- `IntrusiveBase::as_alias` for a macro-generated type: the identity
reinterpretation (`&*(self as *const _).cast()`), since the handle has
exactly the representation of `IntrusiveAlias`. -/
def as_alias (h : Handle C F k) : IntrusiveAlias := h.ia

/-- `Intrusive::from_alias(ia)`: `<T as IntrusiveBase>::new(ia)`. -/
def from_alias (ia : IntrusiveAlias) : Handle C F k := Handle.new ia

/-- `Intrusive::into_alias(self)`: `*self.as_alias()`. -/
def into_alias (h : Handle C F k) : IntrusiveAlias := h.as_alias

/-- `Intrusive::as_alias_mut(&mut self)`: a mutable reinterpretation of
`self.as_alias()`; result alias and post-call handle state. -/
def as_alias_mut (h : Handle C F k) : IntrusiveAlias × Handle C F k :=
  (h.as_alias, h)

/-- `Intrusive::of_alias(ia: &IntrusiveAlias) -> &T`: reinterpret the
referenced alias as the handle value. -/
def of_alias (ia : IntrusiveAlias) : Handle C F k := ⟨ia⟩

/-- `Intrusive::of_alias_mut`: as `of_alias`, plus the post-call alias
state (the reinterpretation writes nothing). -/
def of_alias_mut (ia : IntrusiveAlias) : Handle C F k × IntrusiveAlias :=
  (⟨ia⟩, ia)

/-- `Intrusive::from_container(c)`:
`addr = c.as_alias().get_address().add(offset()); mem::forget(c);
from_alias(IntrusiveAlias(addr))`. -/
def from_container (c : OwnBox C) : Handle C F k :=
  Handle.from_alias (IntrusiveAlias.new (c.as_alias.get_address + k))

/-- `Intrusive::into_container(self)`:
`containerptr = fieldptr.sub(offset()); OwnBox::from_alias(..)`. -/
def into_container (h : Handle C F k) : OwnBox C :=
  OwnBox.from_alias (IntrusiveAlias.new (h.as_alias.get_address - k))

/-- `Intrusive::of_container(container: &Container)`:
`fieldptr = addr.add(offset()); BorrowBox::new_from(..)`. -/
def of_container (container : Addr) : BorrowBox (Handle C F k) :=
  BorrowBox.new_from (IntrusiveAlias.new (container + k))

/-- `Intrusive::of_container_mut(container: &mut Container)`. -/
def of_container_mut (container : Addr) : BorrowBoxMut (Handle C F k) :=
  BorrowBoxMut.new_from (IntrusiveAlias.new (container + k))

/-- `Intrusive::as_container(&self) -> &Container`: the reference
`&*(fieldptr.sub(offset()))`, embedded as its address. -/
def as_container (h : Handle C F k) : Addr :=
  h.as_alias.get_address - k

/-- `Intrusive::as_container_mut(&mut self)`: `transmute(self.as_container())`;
result address and post-call handle state. -/
def as_container_mut (h : Handle C F k) : Addr × Handle C F k :=
  (h.as_container, h)

/-- `Intrusive::from_field(c)` (unsafe): `addr = c.as_alias().get_address();
mem::forget(c); from_alias(IntrusiveAlias::new(addr))`. -/
def from_field (c : OwnBox F) : Handle C F k :=
  Handle.from_alias (IntrusiveAlias.new c.as_alias.get_address)

/-- `Intrusive::into_field(self)`:
`OwnBox::from_alias(IntrusiveAlias(self.as_alias().get_address()))`. -/
def into_field (h : Handle C F k) : OwnBox F :=
  OwnBox.from_alias (IntrusiveAlias.mk h.as_alias.get_address)

/-- `Intrusive::as_field(&self) -> &Field`: the reference
`&*(self.as_alias().get_address())`, embedded as its address. -/
def as_field (h : Handle C F k) : Addr :=
  h.as_alias.get_address

/-- `Intrusive::as_field_mut(&mut self) -> &mut Field`: the reference
address and the post-call handle state (the body only reads `self`). -/
def as_field_mut (h : Handle C F k) : Addr × Handle C F k :=
  (h.as_alias.get_address, h)

end Handle

/-- `impl Deref for BorrowBox<'a, T>`: `Intrusive::of_alias(&self.pointer)`. -/
def BorrowBox.deref {C F : Type} {k : Nat} (b : BorrowBox (Handle C F k)) :
    Handle C F k :=
  Handle.of_alias b.pointer

/-- `impl Deref for BorrowBoxMut<'a, T>`: `Intrusive::of_alias(&self.pointer)`. -/
def BorrowBoxMut.deref {C F : Type} {k : Nat} (b : BorrowBoxMut (Handle C F k)) :
    Handle C F k :=
  Handle.of_alias b.pointer

/-- `impl DerefMut for BorrowBoxMut<'a, T>`:
`Intrusive::of_alias_mut(&mut self.pointer)`; the dereferenced handle
and the post-call state of the borrow wrapper. -/
def BorrowBoxMut.deref_mut {C F : Type} {k : Nat}
    (b : BorrowBoxMut (Handle C F k)) :
    Handle C F k × BorrowBoxMut (Handle C F k) :=
  let r : Handle C F k × IntrusiveAlias := Handle.of_alias_mut b.pointer
  (r.1, ⟨r.2⟩)

/-- Byte-addressed memory holding the field values (each field access in
the library reads or writes a whole field at its start address). -/
def Mem := Addr → Int

/-- Store a field value at a byte address. -/
def Mem.store (m : Mem) (a : Addr) (v : Int) : Mem :=
  fun x => if x = a then v else m x

/-- Load the field value at a byte address. -/
def Mem.load (m : Mem) (a : Addr) : Int := m a

/-- Writing `v` through the mutable field reference returned by
`as_field_mut`: a store at the reference's address. -/
def Handle.write_field_mut {C F : Type} {k : Nat}
    (h : Handle C F k) (m : Mem) (v : Int) : Mem :=
  Mem.store m (h.as_field_mut).1 v

/-- Byte offset reported by `containerof_field_offset!` for field `i` of
a container laid out with fields of the given byte sizes in declaration
order with no padding: the field's address inside a hypothetical
instance at address zero, i.e. the sum of the sizes of the preceding
fields.  (The macro delegates to the compiler's layout — `offset_of!`,
or the address of the field at a null base; for a no-padding in-order
layout that layout is exactly the prefix sums.) -/
def containerof_field_offset (sizes : List Nat) (i : Nat) : Nat :=
  (sizes.take i).sum

/-- The fallback path of `containerof_field_offset!` made explicit:
`unsafe { &(*(0usize as *const C)).field as *const _ as usize }` —
place a hypothetical container at base address `0`, form the address of
field `i`, and cast that address to `usize`.  The computation runs in a
context with a memory `_m` from which it never loads. -/
def field_offset_fallback (_m : Mem) (sizes : List Nat) (i : Nat) : Nat :=
  let base : Addr := 0
  let fieldaddr : Addr := base + (sizes.take i).sum
  fieldaddr

/-- The test container: `struct MyStruct { field1: i32, field2: i32,
field3: i32 }` — three 4-byte fields, laid out with no padding. -/
structure MyStruct where
  field1 : Int
  field2 : Int
  field3 : Int
  deriving DecidableEq, Repr

/-- The field byte sizes of `MyStruct`: three 4-byte (`i32`) fields. -/
def MyStruct.sizes : List Nat := [4, 4, 4]

/-- Byte offset of `field1` in `MyStruct`. -/
def MyStruct.field1_offset : Nat := containerof_field_offset MyStruct.sizes 0

/-- Byte offset of `field2` in `MyStruct`. -/
def MyStruct.field2_offset : Nat := containerof_field_offset MyStruct.sizes 1

/-- Byte offset of `field3` in `MyStruct`. -/
def MyStruct.field3_offset : Nat := containerof_field_offset MyStruct.sizes 2

/-- Read `field1` of the `MyStruct` instance at address `p` directly
from memory. -/
def MyStruct.read_field1 (m : Mem) (p : Addr) : Int :=
  m.load (p + MyStruct.field1_offset)

/-- Read `field2` of the `MyStruct` instance at address `p` directly
from memory. -/
def MyStruct.read_field2 (m : Mem) (p : Addr) : Int :=
  m.load (p + MyStruct.field2_offset)

/-- Read `field3` of the `MyStruct` instance at address `p` directly
from memory. -/
def MyStruct.read_field3 (m : Mem) (p : Addr) : Int :=
  m.load (p + MyStruct.field3_offset)

/-!  Scenario definitions used by the mutation property (spec §8,
concrete scenario B and borrow correctness). -/

/-- Scenario B, borrow path: with the container at address `p`, build a
mutable-borrow handle for field two with `of_container_mut`, dereference
it, and write `10` through `as_field_mut`. -/
def scenarioB_mem_borrow (m : Mem) (p : Addr) : Mem :=
  (((Handle.of_container_mut p :
      BorrowBoxMut (Handle MyStruct Int MyStruct.field2_offset)).deref_mut).1).write_field_mut
    m 10

/-- Scenario B, owning path: take ownership of the container allocation
at address `p`, translate it to an owning handle for field two with
`from_container`, and write `10` through `as_field_mut`. -/
def scenarioB_mem_own (m : Mem) (p : Addr) : Mem :=
  (Handle.from_container (OwnBox.from_box p) :
      Handle MyStruct Int MyStruct.field2_offset).write_field_mut m 10

/-- A concrete memory holding a `MyStruct` instance at address `0` with
field values `{1, 2, 3}`. -/
def scenarioB_init_mem : Mem :=
  fun a => if a = 0 then 1 else if a = 4 then 2 else if a = 8 then 3 else 0

/-- C1: Container round-trip: converting an owning container `OwnBox` to
an intrusive handle with `from_container` and then back with
`into_container` yields an `OwnBox` whose tracked address equals the
original container's address exactly, for any field selection (any
field type `F` and any field offset `k`) within the same container
type `C`. -/
theorem from_container_into_container_preserves_address
    {C F : Type} (k : Nat) (c : OwnBox C) :
    ((Handle.from_container c : Handle C F k).into_container).get_address
      = c.get_address := by
  simp [Handle.from_container, Handle.into_container, Handle.from_alias,
    Handle.new, Handle.as_alias, OwnBox.from_alias, OwnBox.as_alias,
    OwnBox.get_address, IntrusiveAlias.new, IntrusiveAlias.get_address]

/-- C2: Translator arithmetic postconditions: for a container at address
`p` (or tracked by the owning box `c`) and field offset `k`,
`from_container`, `of_container` and `of_container_mut` produce a handle
whose stored alias address is the container address plus `k`;
conversely `into_container` and `as_container` compute the container
address as the handle's stored field address minus `k`. -/
theorem translator_address_arithmetic
    {C F : Type} (k : Nat) (c : OwnBox C) (p : Addr) (h : Handle C F k) :
    (Handle.from_container c : Handle C F k).as_alias.get_address
        = c.get_address + k
    ∧ ((Handle.of_container p : BorrowBox (Handle C F k)).deref).as_alias.get_address
        = p + k
    ∧ ((Handle.of_container_mut p : BorrowBoxMut (Handle C F k)).deref).as_alias.get_address
        = p + k
    ∧ h.into_container.get_address = h.as_alias.get_address - k
    ∧ h.as_container = h.as_alias.get_address - k :=
  ⟨rfl, rfl, rfl, rfl, rfl⟩

/-- C3: Field round-trip: `from_container`, then `into_field` (release
the handle as a field `OwnBox`), then `from_field` (re-acquire the
handle from that field box), then `into_container` yields an `OwnBox`
whose tracked address equals the original container's address
exactly. -/
theorem field_roundtrip_preserves_address
    {C F : Type} (k : Nat) (c : OwnBox C) :
    ((Handle.from_field
        ((Handle.from_container c : Handle C F k).into_field)
      : Handle C F k).into_container).get_address = c.get_address := by
  simp [Handle.from_container, Handle.into_container, Handle.from_field,
    Handle.into_field, Handle.from_alias, Handle.new, Handle.as_alias,
    OwnBox.from_alias, OwnBox.as_alias, OwnBox.get_address,
    IntrusiveAlias.new, IntrusiveAlias.get_address]

/-- C4: Handle↔alias conversions are the identity on the address: for an
arbitrary address `a`, `from_alias (IntrusiveAlias a)` followed by
`into_alias` returns `IntrusiveAlias a` bit-for-bit, and more generally
the round-trip performs no transformation of the stored alias value,
only a type-level relabeling. -/
theorem from_alias_into_alias_identity
    {C F : Type} (k : Nat) (a : Addr) :
    (Handle.from_alias (IntrusiveAlias.mk a) : Handle C F k).into_alias
        = IntrusiveAlias.mk a
    ∧ ∀ ia : IntrusiveAlias,
        (Handle.from_alias ia : Handle C F k).into_alias = ia :=
  ⟨rfl, fun _ => rfl⟩

/-- C5: Mutation through a handle is exactly the mutation of the
targeted field: starting from a container at address `p` with field
values `{1, 2, 3}`, writing `10` to field two through a handle's
mutable field access — through the mutable-borrow handle obtained by
`of_container_mut` (borrow path) or through the owning handle obtained
by `from_container` (owning path), both via `as_field_mut` — and then
reading the container directly gives field two equal to `10` while
fields one and three remain `1` and `3`. -/
theorem mutation_through_handle_targets_only_field_two
    (p : Addr) (m : Mem)
    (h1 : MyStruct.read_field1 m p = 1)
    (h2 : MyStruct.read_field2 m p = 2)
    (h3 : MyStruct.read_field3 m p = 3) :
    (MyStruct.read_field2 (scenarioB_mem_borrow m p) p = 10
      ∧ MyStruct.read_field1 (scenarioB_mem_borrow m p) p = 1
      ∧ MyStruct.read_field3 (scenarioB_mem_borrow m p) p = 3)
    ∧ (MyStruct.read_field2 (scenarioB_mem_own m p) p = 10
      ∧ MyStruct.read_field1 (scenarioB_mem_own m p) p = 1
      ∧ MyStruct.read_field3 (scenarioB_mem_own m p) p = 3) := by
  have eb : scenarioB_mem_borrow m p = Mem.store m (p + 4) 10 := rfl
  have eo : scenarioB_mem_own m p = Mem.store m (p + 4) 10 := rfl
  simp only [MyStruct.read_field1, MyStruct.read_field2, MyStruct.read_field3,
    MyStruct.field1_offset, MyStruct.field2_offset, MyStruct.field3_offset,
    MyStruct.sizes, containerof_field_offset, Mem.load,
    List.take_succ_cons, List.take_zero, List.sum_cons, List.sum_nil,
    Nat.add_zero] at h1 h2 h3
  rw [eb, eo]
  simp [MyStruct.read_field1, MyStruct.read_field2, MyStruct.read_field3,
    MyStruct.field1_offset, MyStruct.field2_offset, MyStruct.field3_offset,
    MyStruct.sizes, containerof_field_offset, Mem.load, Mem.store, h1, h2, h3]

/-- Witness for C5 at `p = 0` with the concrete initial memory. -/
theorem mutation_through_handle_witness :
    (MyStruct.read_field1 scenarioB_init_mem 0 = 1
      ∧ MyStruct.read_field2 scenarioB_init_mem 0 = 2
      ∧ MyStruct.read_field3 scenarioB_init_mem 0 = 3)
    ∧ ((MyStruct.read_field2 (scenarioB_mem_borrow scenarioB_init_mem 0) 0 = 10
        ∧ MyStruct.read_field1 (scenarioB_mem_borrow scenarioB_init_mem 0) 0 = 1
        ∧ MyStruct.read_field3 (scenarioB_mem_borrow scenarioB_init_mem 0) 0 = 3)
      ∧ (MyStruct.read_field2 (scenarioB_mem_own scenarioB_init_mem 0) 0 = 10
        ∧ MyStruct.read_field1 (scenarioB_mem_own scenarioB_init_mem 0) 0 = 1
        ∧ MyStruct.read_field3 (scenarioB_mem_own scenarioB_init_mem 0) 0 = 3)) :=
  ⟨⟨by decide, by decide, by decide⟩,
    mutation_through_handle_targets_only_field_two 0 scenarioB_init_mem
      (by decide) (by decide) (by decide)⟩

/-- C6: For a container type with three 4-byte fields laid out with no
padding (the test container `MyStruct`), the offset calculator reports
byte offsets `0`, `4` and `8` for fields one, two and three
respectively. -/
theorem field_offsets_are_0_4_8 :
    MyStruct.field1_offset = 0
    ∧ MyStruct.field2_offset = 4
    ∧ MyStruct.field3_offset = 8
    ∧ containerof_field_offset [4, 4, 4] 0 = 0
    ∧ containerof_field_offset [4, 4, 4] 1 = 4
    ∧ containerof_field_offset [4, 4, 4] 2 = 8 :=
  ⟨rfl, rfl, rfl, rfl, rfl, rfl⟩

/-- C7: Dropping an `OwnBox` that was never consumed silently does
nothing: the `Drop` handler returns without an abort (`Except.error`)
and with the allocation state unchanged — no deallocation and no
observable action. -/
theorem drop_handler_does_nothing {T : Type} (w : World) (b : OwnBox T) :
    OwnBox.drop_handler w b = Except.ok w :=
  rfl

/-- C8: The offset calculator computes only an address and never
dereferences memory through it — its result is independent of the
ambient memory it runs in — and, being a total function on its inputs,
it has no runtime failure mode; the address it computes is exactly the
field offset. -/
theorem field_offset_never_dereferences (m1 m2 : Mem)
    (sizes : List Nat) (i : Nat) :
    field_offset_fallback m1 sizes i = field_offset_fallback m2 sizes i
    ∧ field_offset_fallback m1 sizes i = containerof_field_offset sizes i := by
  constructor
  · rfl
  · simp [field_offset_fallback, containerof_field_offset]

/-- C9: Alias contract: a copy of an `IntrusiveAlias` equals the
original (`Copy`); `IntrusiveAlias::new(a).get_address() = a` for every
raw address `a`; `IntrusiveAlias::new_of(r).get_address()` is the
address of the referent `r`; and two `IntrusiveAlias` values are equal
exactly when their stored addresses are equal. -/
theorem intrusive_alias_contract (a r : Addr) (x y : IntrusiveAlias) :
    IntrusiveAlias.copy x = x
    ∧ (IntrusiveAlias.new a).get_address = a
    ∧ (IntrusiveAlias.new_of r).get_address = r
    ∧ (x = y ↔ x.get_address = y.get_address) := by
  refine ⟨rfl, rfl, rfl, ?_⟩
  cases x
  cases y
  simp [IntrusiveAlias.get_address]

/-- C10: Handle-address invariant: a handle's stored alias is exactly
the alias given at construction (`new`), and every read-access
operation — `as_field`, `as_field_mut`, `as_container`,
`as_container_mut`, `as_alias_mut`, and dereferencing a `BorrowBox` or
`BorrowBoxMut` — observes but never modifies the stored address; in
particular `as_field` returns a reference at exactly the stored alias
address and `as_container` at exactly the stored address minus the
offset `k`. -/
theorem handle_address_invariant {C F : Type} (k : Nat)
    (h : Handle C F k) (ia : IntrusiveAlias)
    (b : BorrowBox (Handle C F k)) (bm : BorrowBoxMut (Handle C F k)) :
    (Handle.new ia : Handle C F k).as_alias = ia
    ∧ h.as_field = h.as_alias.get_address
    ∧ (h.as_field_mut).1 = h.as_alias.get_address
    ∧ (h.as_field_mut).2 = h
    ∧ h.as_container = h.as_alias.get_address - k
    ∧ (h.as_container_mut).1 = h.as_alias.get_address - k
    ∧ (h.as_container_mut).2 = h
    ∧ (h.as_alias_mut).1 = h.as_alias
    ∧ (h.as_alias_mut).2 = h
    ∧ b.deref.as_alias = b.pointer
    ∧ bm.deref.as_alias = bm.pointer
    ∧ (bm.deref_mut).1.as_alias = bm.pointer
    ∧ (bm.deref_mut).2 = bm :=
  ⟨rfl, rfl, rfl, rfl, rfl, rfl, rfl, rfl, rfl, rfl, rfl, rfl, rfl⟩
